import Mathlib

/-!
Shallow embedding of the WSS Python interface session controller
(`WSS_Py_Wrapper/src/wss_py_wrapper/stimulation_controller.py`).

Python strings are modelled as `List Char`; Python `int` is `Int`
(arbitrary precision, possibly negative).  The external .NET device
handle is opaque: each device-side call the controller issues is
recorded as an `Event` in an emitted trace, and the device's possible
behaviours (exceptions raised, query results) are supplied through a
`Behavior` record.  Controller methods are modelled as state-passing
functions returning a `StepResult`: an optional error (a raised Python
exception surfaced to the caller), a return value, the successor
state, the device-operation trace and the log messages emitted.
-/

namespace Wss

/-- Python whitespace characters stripped by `int(...)` / accepted around
a numeric literal (space, tab, newline, carriage return, vertical tab,
form feed). -/
def isPySpace (c : Char) : Bool :=
  c == ' ' || c == Char.ofNat 9 || c == Char.ofNat 10 ||
  c == Char.ofNat 13 || c == Char.ofNat 11 || c == Char.ofNat 12

/-- `str.strip()` behaviour of Python `int(...)`: drop surrounding
whitespace on both ends. -/
def pyStrip (l : List Char) : List Char :=
  ((l.dropWhile isPySpace).reverse.dropWhile isPySpace).reverse

/-- Digit-run parser for Python `int(...)`: at least one decimal digit,
with single underscores allowed strictly between digits (CPython's
literal grammar).  `p` records whether the previous character was a
digit (so that an underscore is currently allowed); `acc` is the value
accumulated so far. -/
def parseUnderscored : List Char → Bool → Nat → Option Nat
  | [], p, acc => if p then some acc else none
  | c :: rest, p, acc =>
    if c.isDigit then parseUnderscored rest true (acc * 10 + (c.toNat - 48))
    else if c == '_' && p then parseUnderscored rest false acc
    else none

/-- Model of Python `int(s)` on a decimal string: strip surrounding
whitespace, accept an optional sign, then a digit run; `none` models
the `ValueError` raised on a malformed literal. -/
def pyParseInt? (l : List Char) : Option Int :=
  match pyStrip l with
  | [] => none
  | c :: rest =>
    if c = '+' then (parseUnderscored rest false 0).map Int.ofNat
    else if c = '-' then (parseUnderscored rest false 0).map (fun n => -(Int.ofNat n))
    else (parseUnderscored (c :: rest) false 0).map Int.ofNat

/-- Python `str.lower()` (ASCII-relevant part). -/
def pyLower (l : List Char) : List Char := l.map Char.toLower

/-- Embeds `StimulationController._finger_to_channel`: empty locator is 0;
a locator whose lowercase form starts with "ch" parses the remainder of
the ORIGINAL string with `int(...)`, malformed parse giving 0; otherwise
the five named locations (alias "little" for "pinky") map to channels
1..5 and anything else to 0. -/
def finger_to_channel (finger : List Char) : Int :=
  if finger = [] then 0
  else if ['c', 'h'].isPrefixOf (pyLower finger) then
    match pyParseInt? (finger.drop 2) with
    | some n => n
    | none => 0
  else
    let m := pyLower finger
    if m = "thumb".data then 1
    else if m = "index".data then 2
    else if m = "middle".data then 3
    else if m = "ring".data then 4
    else if m = "pinky".data ∨ m = "little".data then 5
    else 0

/-- Decimal value of a digit string (most significant first). -/
def digitsVal (ds : List Char) : Nat :=
  ds.foldl (fun a c => a * 10 + (c.toNat - 48)) 0

/-- The `WssTarget` .NET enumeration used by the controller. -/
inductive WssTarget
  | Broadcast
  | Wss1
  | Wss2
  | Wss3
deriving DecidableEq, Repr

/-- A loosely-typed Python argument, as inspected by `updateWaveform`'s
`isinstance` checks: an `int`, a `WaveformBuilder` instance (identified
by an opaque tag), a `list`/`tuple` of raw samples, or any other value. -/
inductive PyVal
  | vint (n : Int)
  | vbuilder (tag : Nat)
  | vseq (samples : List Int)
  | vother
deriving DecidableEq, Repr

/-- One call the controller issues on the device handle (or, for
`installLogSink` / `logResetInvoked`, on the host-side log bridge). -/
inductive Event
  | installLogSink
  | logResetInvoked
  | construct
  | devInitialize
  | devShutdown
  | devDispose
  | tryGetBasicQuery
  | startStim (t : WssTarget)
  | stopStim (t : WssTarget)
  | stimulateAnalog (ch pw amp ipi : Int)
  | stimulateNormalized (ch : Int) (magnitude : Int)
  | getStimIntensity (ch : Int)
  | isChannelInRange (ch : Int)
  | addOrUpdateStimParam (key : List Char) (value : Int)
  | getStimParam (key : List Char)
  | setChannelAmp (ch : Int) (v : Int)
  | getChannelAmp (ch : Int)
  | isModeValidQuery
  | readyQuery
  | startedQuery
  | basicSave (t : WssTarget)
  | basicLoad (t : WssTarget)
  | basicRequestConfigs (command id : Int) (t : WssTarget)
  | basicUpdateWaveformB (builderTag : Nat) (eventId : PyVal) (t : WssTarget)
  | basicUpdateWaveformS (samples : List Int) (eventId : PyVal) (t : WssTarget)
  | basicUpdateEventShape (cathodic anodic eventId : Int) (t : WssTarget)
  | basicLoadWaveform (fileName : List Char) (eventId : Int)
  | basicWaveformSetup (wave : PyVal) (eventId : Int) (t : WssTarget)
  | basicUpdateIPD (ipd eventId : Int) (t : WssTarget)
deriving DecidableEq, Repr

/-- True exactly for the parameter-update device call
(`AddOrUpdateStimParam`). -/
def Event.isParamUpdate : Event → Bool
  | .addOrUpdateStimParam _ _ => true
  | _ => false

/-- A log message the controller writes through `_log_error`. -/
inductive LogMsg
  | shutdownError
  | disposeError
  | basicUnsupported
deriving DecidableEq, Repr

/-- A Python exception surfaced to the caller. -/
inductive CtrlError
  | notInitialized
  | invalidChannel (ch : Int)
  | unsupportedShape
  | driverLoadFailure
  | deviceFailure
deriving DecidableEq, Repr

/-- The mutable fields of `StimulationController` relevant to the
claims: `wss`/`basic_wss` record whether the slot is populated,
`log_reset`/`log_type` whether the log bridge is installed, and
`tick_thread` whether a (live) tick-loop thread exists. -/
structure CtrlState where
  wss : Bool
  basic_wss : Bool
  basic_supported : Bool
  started : Bool
  tick_thread : Bool
  log_reset : Bool
  log_type : Bool
deriving DecidableEq, Repr

/-- Freshly constructed controller: everything empty/false. -/
def initialState : CtrlState :=
  { wss := false, basic_wss := false, basic_supported := false,
    started := false, tick_thread := false, log_reset := false,
    log_type := false }

/-- The shape of the value `TryGetBasic()` yields across the interop
boundary, as discriminated by `_try_get_basic`: an exception, a
`(success, handle)` tuple, or a bare scalar truth value. -/
inductive TGBResult
  | raises
  | tuple (success : Bool) (basicPresent : Bool)
  | scalar (success : Bool)
deriving DecidableEq, Repr

/-- Behaviour of the external device/driver: which calls raise, and
what the query calls answer. -/
structure Behavior where
  driverLoadFails : Bool
  constructFails : Bool
  devInitializeRaises : Bool
  devShutdownRaises : Bool
  devDisposeRaises : Bool
  tryGetBasic : TGBResult
  isChannelInRange : Int → Bool
  ready : Bool
  startedDev : Bool
  stimIntensity : Int → Int

/-- Result of one controller method: the error raised (if any), the
returned value, the successor state, the device/bridge operations
performed, and the log messages written. -/
structure StepResult (α : Type) where
  err : Option CtrlError
  val : α
  state : CtrlState
  ops : List Event
  logs : List LogMsg
deriving DecidableEq, Repr

/-- `_log_error`: writes through the cached C# `Log` type only when one
was resolved (i.e. after the log sink was installed); otherwise a
silent no-op. -/
def logIf (s : CtrlState) (m : LogMsg) : List LogMsg :=
  if s.log_type then [m] else []

namespace StimulationController

/-- Embeds `_try_get_basic`: an exception yields `(False, None)`; a
tuple result is split; a bare scalar is coerced to bool with no
handle. -/
def try_get_basic : TGBResult → Bool × Bool
  | .raises => (false, false)
  | .tuple success basicPresent => (success, basicPresent)
  | .scalar success => (success, false)

/-- Embeds `_int_to_wss_target`: `None` and anything outside {1,2,3}
map to `Broadcast`. -/
def int_to_wss_target : Option Int → WssTarget
  | none => WssTarget.Broadcast
  | some v =>
    if v = 1 then WssTarget.Wss1
    else if v = 2 then WssTarget.Wss2
    else if v = 3 then WssTarget.Wss3
    else WssTarget.Broadcast

/-- Embeds `_stop_tick_loop`: signals the loop and joins; afterwards no
tick thread is held. -/
def stop_tick_loop (s : CtrlState) : CtrlState :=
  { s with tick_thread := false }

/-- Embeds `_ensure_tick_loop`: no device means no loop; an already
live loop is left alone; otherwise a fresh loop thread is started. -/
def ensure_tick_loop (s : CtrlState) : CtrlState :=
  if s.wss = false then s
  else if s.tick_thread then s
  else { s with tick_thread := true }

/-- Embeds `Initialize` (gate-guarded): a populated slot returns at
once; otherwise load the driver DLLs (failure propagates), install the
log sink only when no reset callback is held, construct the core and
layers (failure propagates), record the extended-capability query,
call the device's own `Initialize` (failure propagates, with the slot
already populated as in the source), and start the tick loop. -/
def Initialize (b : Behavior) (s : CtrlState) : StepResult Unit :=
  if s.wss then { err := none, val := (), state := s, ops := [], logs := [] }
  else if b.driverLoadFails then
    { err := some CtrlError.driverLoadFailure, val := (), state := s, ops := [], logs := [] }
  else
    let installOps : List Event := if s.log_reset then [] else [Event.installLogSink]
    let s1 := if s.log_reset then s else { s with log_type := true, log_reset := true }
    if b.constructFails then
      { err := some CtrlError.deviceFailure, val := (), state := s1,
        ops := installOps ++ [Event.construct], logs := [] }
    else
      let tg := try_get_basic b.tryGetBasic
      let s3 := { s1 with wss := true, basic_supported := tg.1, basic_wss := tg.2 }
      if b.devInitializeRaises then
        { err := some CtrlError.deviceFailure, val := (), state := s3,
          ops := installOps ++ [Event.construct, Event.tryGetBasicQuery, Event.devInitialize],
          logs := [] }
      else
        { err := none, val := (), state := ensure_tick_loop s3,
          ops := installOps ++ [Event.construct, Event.tryGetBasicQuery, Event.devInitialize],
          logs := [] }

/-- Embeds `Shutdown` (gate-guarded): stop the tick loop, then — when a
device is present — call device `Shutdown` then `Dispose`, each failure
caught, logged and swallowed; invoke the log-reset callback when held
(errors swallowed); finally clear `_wss`, `_basic_wss`,
`_basic_supported` and `started`.  The source never clears
`_log_reset` or `_log_type`. -/
def Shutdown (b : Behavior) (s : CtrlState) : StepResult Unit :=
  let s1 := stop_tick_loop s
  let teardownOps : List Event := if s1.wss then [Event.devShutdown, Event.devDispose] else []
  let teardownLogs : List LogMsg :=
    if s1.wss then
      (if b.devShutdownRaises then logIf s1 LogMsg.shutdownError else []) ++
      (if b.devDisposeRaises then logIf s1 LogMsg.disposeError else [])
    else []
  let resetOps : List Event := if s1.log_reset then [Event.logResetInvoked] else []
  { err := none, val := (),
    state := { s1 with wss := false, basic_wss := false, basic_supported := false,
                       started := false },
    ops := teardownOps ++ resetOps, logs := teardownLogs }

/-- Embeds `releaseRadio`: an alias for `Shutdown`. -/
def releaseRadio (b : Behavior) (s : CtrlState) : StepResult Unit :=
  Shutdown b s

/-- Embeds `resetRadio` (gate-guarded): a no-op when not initialized;
otherwise stop the tick loop, call device `Shutdown` then device
`Initialize` — neither wrapped in a handler, so a failure propagates —
and restart the tick loop.  `_wss`/`_basic_supported` are never
touched. -/
def resetRadio (b : Behavior) (s : CtrlState) : StepResult Unit :=
  if s.wss = false then
    { err := none, val := (), state := s, ops := [], logs := [] }
  else
    let s1 := stop_tick_loop s
    if b.devShutdownRaises then
      { err := some CtrlError.deviceFailure, val := (), state := s1,
        ops := [Event.devShutdown], logs := [] }
    else if b.devInitializeRaises then
      { err := some CtrlError.deviceFailure, val := (), state := s1,
        ops := [Event.devShutdown, Event.devInitialize], logs := [] }
    else
      { err := none, val := (), state := ensure_tick_loop s1,
        ops := [Event.devShutdown, Event.devInitialize], logs := [] }

/-- Result of `_ensure_wss` failing: the `RuntimeError` raised when a
command runs before `Initialize`. -/
def notInitRes (s : CtrlState) : StepResult Unit :=
  { err := some CtrlError.notInitialized, val := (), state := s, ops := [], logs := [] }

/-- A successful command that changed nothing but issued `ops`. -/
def okOps (s : CtrlState) (ops : List Event) : StepResult Unit :=
  { err := none, val := (), state := s, ops := ops, logs := [] }

/-- Embeds `_require_basic`'s test: extended capability available iff
`_basic_supported` and a basic handle are both present. -/
def hasBasic (s : CtrlState) : Bool :=
  s.basic_supported && s.basic_wss

/-- The soft no-op every extended-capability command performs when
`_require_basic` returns `None`: log and return, raising nothing. -/
def basicUnsupportedRes (s : CtrlState) : StepResult Unit :=
  { err := none, val := (), state := s, ops := [], logs := logIf s LogMsg.basicUnsupported }

/-- Embeds `StimulateAnalog(finger, PW, amp, IPI)`. -/
def StimulateAnalog (s : CtrlState) (finger : List Char) (pw amp ipi : Int) : StepResult Unit :=
  if s.wss = false then notInitRes s
  else okOps s [Event.stimulateAnalog (finger_to_channel finger) pw amp ipi]

/-- Embeds `StartStimulation`: broadcast `StartStim`, set `started`. -/
def StartStimulation (s : CtrlState) : StepResult Unit :=
  if s.wss = false then notInitRes s
  else { err := none, val := (), state := { s with started := true },
         ops := [Event.startStim WssTarget.Broadcast], logs := [] }

/-- Embeds `StopStimulation`: broadcast `StopStim`, clear `started`. -/
def StopStimulation (s : CtrlState) : StepResult Unit :=
  if s.wss = false then notInitRes s
  else { err := none, val := (), state := { s with started := false },
         ops := [Event.stopStim WssTarget.Broadcast], logs := [] }

/-- Embeds `StimulateNormalized(finger, magnitude)` (the float
magnitude is an opaque pass-through, modelled as `Int`). -/
def StimulateNormalized (s : CtrlState) (finger : List Char) (magnitude : Int) : StepResult Unit :=
  if s.wss = false then notInitRes s
  else okOps s [Event.stimulateNormalized (finger_to_channel finger) magnitude]

/-- Embeds `GetStimIntensity(finger)`. -/
def GetStimIntensity (b : Behavior) (s : CtrlState) (finger : List Char) : StepResult Int :=
  if s.wss = false then
    { err := some CtrlError.notInitialized, val := 0, state := s, ops := [], logs := [] }
  else
    { err := none, val := b.stimIntensity (finger_to_channel finger), state := s,
      ops := [Event.getStimIntensity (finger_to_channel finger)], logs := [] }

/-- Embeds `AddOrUpdateStimParam(key, value)`. -/
def AddOrUpdateStimParam (s : CtrlState) (key : List Char) (value : Int) : StepResult Unit :=
  if s.wss = false then notInitRes s
  else okOps s [Event.addOrUpdateStimParam key value]

/-- Embeds `GetStimParam(key)`. -/
def GetStimParam (s : CtrlState) (key : List Char) : StepResult Unit :=
  if s.wss = false then notInitRes s
  else okOps s [Event.getStimParam key]

/-- Embeds `SetChannelAmp(finger, mA)` (opaque numeric payload). -/
def SetChannelAmp (s : CtrlState) (finger : List Char) (v : Int) : StepResult Unit :=
  if s.wss = false then notInitRes s
  else okOps s [Event.setChannelAmp (finger_to_channel finger) v]

/-- Embeds `GetChannelAmp(finger)`. -/
def GetChannelAmp (s : CtrlState) (finger : List Char) : StepResult Unit :=
  if s.wss = false then notInitRes s
  else okOps s [Event.getChannelAmp (finger_to_channel finger)]

/-- Embeds `isModeValid()`. -/
def isModeValid (s : CtrlState) : StepResult Unit :=
  if s.wss = false then notInitRes s
  else okOps s [Event.isModeValidQuery]

/-- Embeds `Ready()`: returns `False` (raising nothing) when the device
slot is empty, otherwise queries the device. -/
def Ready (b : Behavior) (s : CtrlState) : StepResult Bool :=
  if s.wss then
    { err := none, val := b.ready, state := s, ops := [Event.readyQuery], logs := [] }
  else
    { err := none, val := false, state := s, ops := [], logs := [] }

/-- Embeds `Started()`: same guard shape as `Ready()`. -/
def Started (b : Behavior) (s : CtrlState) : StepResult Bool :=
  if s.wss then
    { err := none, val := b.startedDev, state := s, ops := [Event.startedQuery], logs := [] }
  else
    { err := none, val := false, state := s, ops := [], logs := [] }

/-- The parameter key `stim.ch.<n>.<suffix>` built by
`UpdateChannelParams` via f-string formatting of the channel index. -/
def chKey (ch : Int) (suffix : List Char) : List Char :=
  "stim.ch.".data ++ (toString ch).data ++ ".".data ++ suffix

/-- Embeds `UpdateChannelParams(finger, max_val, min_val, amp)`: ensure
a device, resolve the channel, raise `ValueError` when
`IsChannelInRange` rejects it, otherwise issue the three parameter
updates. -/
def UpdateChannelParams (b : Behavior) (s : CtrlState) (finger : List Char)
    (max_val min_val amp : Int) : StepResult Unit :=
  if s.wss = false then notInitRes s
  else
    let ch := finger_to_channel finger
    if b.isChannelInRange ch = false then
      { err := some (CtrlError.invalidChannel ch), val := (), state := s,
        ops := [Event.isChannelInRange ch], logs := [] }
    else
      okOps s [Event.isChannelInRange ch,
               Event.addOrUpdateStimParam (chKey ch "maxPW".data) max_val,
               Event.addOrUpdateStimParam (chKey ch "minPW".data) min_val,
               Event.addOrUpdateStimParam (chKey ch "amp".data) amp]

/-- Embeds `Save(targetWSS)` (extended capability). -/
def Save (s : CtrlState) (targetWSS : Option Int) : StepResult Unit :=
  if hasBasic s = false then basicUnsupportedRes s
  else okOps s [Event.basicSave (int_to_wss_target targetWSS)]

/-- Embeds `load(targetWSS)` (extended capability). -/
def load (s : CtrlState) (targetWSS : Option Int) : StepResult Unit :=
  if hasBasic s = false then basicUnsupportedRes s
  else okOps s [Event.basicLoad (int_to_wss_target targetWSS)]

/-- Embeds `request_Configs(targetWSS, command, id)` (extended
capability). -/
def request_Configs (s : CtrlState) (targetWSS command id : Int) : StepResult Unit :=
  if hasBasic s = false then basicUnsupportedRes s
  else okOps s [Event.basicRequestConfigs command id (int_to_wss_target (some targetWSS))]

/-- Embeds `updateWaveform(*args)` (extended capability): the six
`isinstance`/length checks of the source, whose guards are mutually
exclusive, realized as one match; anything else raises `ValueError`. -/
def updateWaveform (s : CtrlState) (args : List PyVal) : StepResult Unit :=
  if hasBasic s = false then basicUnsupportedRes s
  else
    match args with
    | [PyVal.vbuilder w, e] =>
      okOps s [Event.basicUpdateWaveformB w e WssTarget.Broadcast]
    | [PyVal.vint t, PyVal.vbuilder w, e] =>
      okOps s [Event.basicUpdateWaveformB w e (int_to_wss_target (some t))]
    | [PyVal.vseq xs, e] =>
      okOps s [Event.basicUpdateWaveformS xs e WssTarget.Broadcast]
    | [PyVal.vint t, PyVal.vseq xs, e] =>
      okOps s [Event.basicUpdateWaveformS xs e (int_to_wss_target (some t))]
    | [PyVal.vint c, PyVal.vint a, PyVal.vint e] =>
      okOps s [Event.basicUpdateEventShape c a e WssTarget.Broadcast]
    | [PyVal.vint t, PyVal.vint c, PyVal.vint a, PyVal.vint e] =>
      okOps s [Event.basicUpdateEventShape c a e (int_to_wss_target (some t))]
    | _ =>
      { err := some CtrlError.unsupportedShape, val := (), state := s, ops := [], logs := [] }

/-- Embeds `loadWaveform(fileName, eventID)` (extended capability). -/
def loadWaveform (s : CtrlState) (fileName : List Char) (eventID : Int) : StepResult Unit :=
  if hasBasic s = false then basicUnsupportedRes s
  else okOps s [Event.basicLoadWaveform fileName eventID]

/-- Embeds `WaveformSetup(wave, eventID, targetWSS)` (extended
capability). -/
def WaveformSetup (s : CtrlState) (wave : PyVal) (eventID : Int)
    (targetWSS : Option Int) : StepResult Unit :=
  if hasBasic s = false then basicUnsupportedRes s
  else okOps s [Event.basicWaveformSetup wave eventID (int_to_wss_target targetWSS)]

/-- Embeds `UpdateIPD(ipd, eventID, targetWSS)` (extended
capability). -/
def UpdateIPD (s : CtrlState) (ipd eventID : Int) (targetWSS : Option Int) : StepResult Unit :=
  if hasBasic s = false then basicUnsupportedRes s
  else okOps s [Event.basicUpdateIPD ipd eventID (int_to_wss_target targetWSS)]

end StimulationController

open StimulationController

/-- Modelled from the spec: the six accepted call shapes of the
`updateWaveform` dispatch table in §4.4, in the stated order (a)-(f);
`false` is the "unsupported call shape" bucket. -/
def acceptedShape : List PyVal → Bool
  | [PyVal.vbuilder _, _] => true
  | [PyVal.vint _, PyVal.vbuilder _, _] => true
  | [PyVal.vseq _, _] => true
  | [PyVal.vint _, PyVal.vseq _, _] => true
  | [PyVal.vint _, PyVal.vint _, PyVal.vint _] => true
  | [PyVal.vint _, PyVal.vint _, PyVal.vint _, PyVal.vint _] => true
  | _ => false

/-- A command outcome that raised the not-initialized `RuntimeError`
and touched neither the device nor the state. -/
def FailsNotInit {α : Type} (r : StepResult α) (s : CtrlState) : Prop :=
  r.err = some CtrlError.notInitialized ∧ r.ops = [] ∧ r.state = s

/-- A command outcome that raised nothing, issued no device operation,
left the state unchanged, and wrote the unsupported-capability warning
whenever the log bridge was installed. -/
def SoftNoop {α : Type} (r : StepResult α) (s : CtrlState) : Prop :=
  r.err = none ∧ r.ops = [] ∧ r.state = s ∧
  (s.log_type = true → r.logs = [LogMsg.basicUnsupported])

/-- A fully well-behaved device: nothing raises, extended capability
present, every channel in range. -/
def B0 : Behavior :=
  { driverLoadFails := false, constructFails := false, devInitializeRaises := false,
    devShutdownRaises := false, devDisposeRaises := false,
    tryGetBasic := TGBResult.tuple true true,
    isChannelInRange := fun _ => true, ready := false, startedDev := false,
    stimIntensity := fun _ => 0 }

/-- A device that answers `TryGetBasic` with `(false, None)`. -/
def BNoBasic : Behavior := { B0 with tryGetBasic := TGBResult.tuple false false }

/-- A device that reports every channel out of range. -/
def BOutOfRange : Behavior := { B0 with isChannelInRange := fun _ => false }

/-- A device whose `Shutdown` and `Dispose` both raise. -/
def BFailTeardown : Behavior := { B0 with devShutdownRaises := true, devDisposeRaises := true }

/-- Controller state after a successful `Initialize` on `B0`. -/
def sInit : CtrlState := (StimulationController.Initialize B0 initialState).state

/-- Controller state after a successful `Initialize` on `BNoBasic`. -/
def sNoBasic : CtrlState := (StimulationController.Initialize BNoBasic initialState).state

/-- A decimal digit is not Python whitespace. -/
theorem digit_not_space (c : Char) (h : c.isDigit = true) : isPySpace c = false := by
  have hs : c ≠ ' ' := by intro e; rw [e] at h; exact absurd h (by decide)
  have h9 : c ≠ Char.ofNat 9 := by intro e; rw [e] at h; exact absurd h (by decide)
  have h10 : c ≠ Char.ofNat 10 := by intro e; rw [e] at h; exact absurd h (by decide)
  have h13 : c ≠ Char.ofNat 13 := by intro e; rw [e] at h; exact absurd h (by decide)
  have h11 : c ≠ Char.ofNat 11 := by intro e; rw [e] at h; exact absurd h (by decide)
  have h12 : c ≠ Char.ofNat 12 := by intro e; rw [e] at h; exact absurd h (by decide)
  simp [isPySpace, hs, h9, h10, h13, h11, h12]

/-- `dropWhile` is the identity on a list with no Python whitespace. -/
theorem dropWhile_no_space (l : List Char) (h : ∀ c ∈ l, isPySpace c = false) :
    l.dropWhile isPySpace = l := by
  cases l with
  | nil => rfl
  | cons c rest => simp [List.dropWhile_cons, h c (by simp)]

/-- Stripping whitespace is the identity on a whitespace-free list. -/
theorem pyStrip_eq_self (l : List Char) (h : ∀ c ∈ l, isPySpace c = false) :
    pyStrip l = l := by
  unfold pyStrip
  rw [dropWhile_no_space l h,
      dropWhile_no_space l.reverse (fun c hc => h c (List.mem_reverse.mp hc)),
      List.reverse_reverse]

/-- On a nonempty all-digit run the underscore-aware parser succeeds
with the folded decimal value, from any prior-digit state. -/
theorem parseUnderscored_digits : ∀ (ds : List Char) (p : Bool) (acc : Nat),
    ds ≠ [] → (∀ c ∈ ds, c.isDigit = true) →
    parseUnderscored ds p acc =
      some (ds.foldl (fun a c => a * 10 + (c.toNat - 48)) acc)
  | [], _, _, hne, _ => absurd rfl hne
  | c :: rest, p, acc, _, hd => by
    have hc : c.isDigit = true := hd c (by simp)
    cases rest with
    | nil => simp [parseUnderscored, hc]
    | cons d rest2 =>
      have hrec := parseUnderscored_digits (d :: rest2) true
        (acc * 10 + (c.toNat - 48)) (by simp) (fun x hx => hd x (by simp [hx]))
      have step : parseUnderscored (c :: d :: rest2) p acc =
          parseUnderscored (d :: rest2) true (acc * 10 + (c.toNat - 48)) := by
        conv_lhs => rw [parseUnderscored]
        rw [if_pos hc]
      rw [step, hrec]
      simp

/-- Python `int(...)` on a nonempty all-digit string yields its decimal
value. -/
theorem pyParseInt_digits (ds : List Char) (hne : ds ≠ [])
    (hd : ∀ c ∈ ds, c.isDigit = true) :
    pyParseInt? ds = some (Int.ofNat (digitsVal ds)) := by
  have hns : ∀ c ∈ ds, isPySpace c = false := fun c hc => digit_not_space c (hd c hc)
  cases ds with
  | nil => exact absurd rfl hne
  | cons c rest =>
    have hcd : c.isDigit = true := hd c (by simp)
    have hcp : ¬ c = '+' := by intro e; rw [e] at hcd; exact absurd hcd (by decide)
    have hcm : ¬ c = '-' := by intro e; rw [e] at hcd; exact absurd hcd (by decide)
    unfold pyParseInt?
    rw [pyStrip_eq_self _ hns]
    simp only [hcp, if_false, hcm]
    rw [parseUnderscored_digits (c :: rest) false 0 (by simp) hd]
    simp [digitsVal]

/-- Python `int(...)` on a minus sign followed by a nonempty all-digit
run yields the negated decimal value. -/
theorem pyParseInt_neg_digits (ds : List Char) (hne : ds ≠ [])
    (hd : ∀ c ∈ ds, c.isDigit = true) :
    pyParseInt? ('-' :: ds) = some (-(Int.ofNat (digitsVal ds))) := by
  have hns : ∀ c ∈ ('-' :: ds), isPySpace c = false := by
    intro c hc
    rcases List.mem_cons.mp hc with rfl | hc'
    · decide
    · exact digit_not_space c (hd c hc')
  unfold pyParseInt?
  rw [pyStrip_eq_self _ hns]
  simp only [reduceIte, reduceCtorEq]
  rw [parseUnderscored_digits ds false 0 hne hd]
  simp [digitsVal]

/-- `ensure_tick_loop` never changes whether the device slot is
populated. -/
theorem ensure_tick_loop_wss (s : CtrlState) :
    (StimulationController.ensure_tick_loop s).wss = s.wss := by
  unfold StimulationController.ensure_tick_loop
  split
  · rfl
  · split <;> rfl

/-- Claim C4: `Shutdown` never raises; with a device present it calls
device `Shutdown` then `Dispose` (both attempted whatever fails, each
failure logged when the log bridge is up, and swallowed); and a second
consecutive `Shutdown` performs no device teardown and does not
raise. -/
theorem Shutdown_never_raises_and_teardown_once (b : Behavior) (s : CtrlState) :
    (StimulationController.Shutdown b s).err = none
    ∧ (s.wss = true →
        (StimulationController.Shutdown b s).ops.take 2 = [Event.devShutdown, Event.devDispose]
        ∧ (s.log_type = true → b.devShutdownRaises = true →
            LogMsg.shutdownError ∈ (StimulationController.Shutdown b s).logs)
        ∧ (s.log_type = true → b.devDisposeRaises = true →
            LogMsg.disposeError ∈ (StimulationController.Shutdown b s).logs))
    ∧ ((StimulationController.Shutdown b
          (StimulationController.Shutdown b s).state).ops.count Event.devShutdown = 0
        ∧ (StimulationController.Shutdown b
            (StimulationController.Shutdown b s).state).ops.count Event.devDispose = 0
        ∧ (StimulationController.Shutdown b
            (StimulationController.Shutdown b s).state).err = none) := by
  refine ⟨rfl, fun h => ⟨?_, fun hl hr => ?_, fun hl hr => ?_⟩, ?_, ?_, rfl⟩
  · simp [StimulationController.Shutdown, StimulationController.stop_tick_loop, h]
  · simp [StimulationController.Shutdown, StimulationController.stop_tick_loop, h, hr, logIf, hl]
  · simp [StimulationController.Shutdown, StimulationController.stop_tick_loop, h, hr, logIf, hl]
  · simp [StimulationController.Shutdown, StimulationController.stop_tick_loop, logIf]
    split <;> simp [List.count_cons, List.count_nil]
  · simp [StimulationController.Shutdown, StimulationController.stop_tick_loop, logIf]
    split <;> simp [List.count_cons, List.count_nil]

/-- Claim C4 witness. -/
theorem Shutdown_never_raises_witness :
    sInit.wss = true
    ∧ (StimulationController.Shutdown BFailTeardown sInit).err = none
    ∧ (StimulationController.Shutdown BFailTeardown sInit).ops.take 2 =
        [Event.devShutdown, Event.devDispose]
    ∧ LogMsg.shutdownError ∈ (StimulationController.Shutdown BFailTeardown sInit).logs :=
  ⟨by decide, (Shutdown_never_raises_and_teardown_once BFailTeardown sInit).1,
   ((Shutdown_never_raises_and_teardown_once BFailTeardown sInit).2.1 (by decide)).1,
   ((Shutdown_never_raises_and_teardown_once BFailTeardown sInit).2.1 (by decide)).2.1
     (by decide) (by decide)⟩

/-- A populated device slot makes `Initialize` return at once. -/
theorem Initialize_already (b : Behavior) {s : CtrlState} (h : s.wss = true) :
    StimulationController.Initialize b s =
      { err := none, val := (), state := s, ops := [], logs := [] } := by
  simp [StimulationController.Initialize, h]

/-- Claim C5: an `Initialize` on an already-populated slot returns at
once with no effect; hence two consecutive `Initialize` calls on a
fresh controller (with the driver and device cooperating) construct
the device exactly once. -/
theorem Initialize_idempotent (b : Behavior) (s : CtrlState) :
    (s.wss = true → StimulationController.Initialize b s =
        { err := none, val := (), state := s, ops := [], logs := [] })
    ∧ (s.wss = false → b.driverLoadFails = false → b.constructFails = false →
        b.devInitializeRaises = false →
        (StimulationController.Initialize b
          (StimulationController.Initialize b s).state).ops = []
        ∧ ((StimulationController.Initialize b s).ops ++
            (StimulationController.Initialize b
              (StimulationController.Initialize b s).state).ops).count Event.construct = 1
        ∧ (s.log_reset = false →
            ((StimulationController.Initialize b s).ops ++
              (StimulationController.Initialize b
                (StimulationController.Initialize b s).state).ops).count
              Event.installLogSink = 1)
        ∧ ((StimulationController.Initialize b s).ops ++
            (StimulationController.Initialize b
              (StimulationController.Initialize b s).state).ops).count
            Event.tryGetBasicQuery = 1
        ∧ ((StimulationController.Initialize b s).ops ++
            (StimulationController.Initialize b
              (StimulationController.Initialize b s).state).ops).count
            Event.devInitialize = 1) := by
  constructor
  · intro h
    exact Initialize_already b h
  · intro h hd hc hi
    have hstate : (StimulationController.Initialize b s).state.wss = true := by
      simp [StimulationController.Initialize, h, hd, hc, hi, ensure_tick_loop_wss]
    rw [Initialize_already b hstate]
    refine ⟨rfl, ?_, fun hlr0 => ?_, ?_, ?_⟩
    · simp only [StimulationController.Initialize, h, hd, hc, hi]
      cases hlr : s.log_reset <;>
        simp [hlr, List.count_append, List.count_cons, List.count_nil]
    · simp [StimulationController.Initialize, h, hd, hc, hi, hlr0,
        List.count_append, List.count_cons, List.count_nil]
    · simp only [StimulationController.Initialize, h, hd, hc, hi]
      cases hlr : s.log_reset <;>
        simp [hlr, List.count_append, List.count_cons, List.count_nil]
    · simp only [StimulationController.Initialize, h, hd, hc, hi]
      cases hlr : s.log_reset <;>
        simp [hlr, List.count_append, List.count_cons, List.count_nil]

/-- Claim C5 witness. -/
theorem Initialize_idempotent_witness :
    sInit.wss = true
    ∧ StimulationController.Initialize B0 sInit =
        { err := none, val := (), state := sInit, ops := [], logs := [] }
    ∧ initialState.wss = false
    ∧ ((StimulationController.Initialize B0 initialState).ops ++
        (StimulationController.Initialize B0
          (StimulationController.Initialize B0 initialState).state).ops).count
        Event.construct = 1 :=
  ⟨by decide, (Initialize_idempotent B0 sInit).1 (by decide), by decide,
   ((Initialize_idempotent B0 initialState).2 (by decide) rfl rfl rfl).2.1⟩

/-- Claim C9: `resetRadio` is a no-op when not initialized; when
initialized and the device cooperates it performs device `Shutdown`
then device `Initialize`, restarts the tick loop and leaves the device
slot, basic handle and `basic_supported` untouched; and a failure in
either device call propagates to the caller uncaught. -/
theorem resetRadio_spec (b : Behavior) (s : CtrlState) :
    (s.wss = false → StimulationController.resetRadio b s =
        { err := none, val := (), state := s, ops := [], logs := [] })
    ∧ (s.wss = true → b.devShutdownRaises = false → b.devInitializeRaises = false →
        (StimulationController.resetRadio b s).err = none
        ∧ (StimulationController.resetRadio b s).ops = [Event.devShutdown, Event.devInitialize]
        ∧ (StimulationController.resetRadio b s).state.wss = s.wss
        ∧ (StimulationController.resetRadio b s).state.basic_wss = s.basic_wss
        ∧ (StimulationController.resetRadio b s).state.basic_supported = s.basic_supported
        ∧ (StimulationController.resetRadio b s).state.tick_thread = true)
    ∧ (s.wss = true → b.devShutdownRaises = true →
        (StimulationController.resetRadio b s).err = some CtrlError.deviceFailure
        ∧ (StimulationController.resetRadio b s).ops = [Event.devShutdown])
    ∧ (s.wss = true → b.devShutdownRaises = false → b.devInitializeRaises = true →
        (StimulationController.resetRadio b s).err = some CtrlError.deviceFailure
        ∧ (StimulationController.resetRadio b s).ops =
            [Event.devShutdown, Event.devInitialize]) := by
  refine ⟨fun h => ?_, fun h h1 h2 => ?_, fun h h1 => ?_, fun h h1 h2 => ?_⟩
  · simp [StimulationController.resetRadio, h]
  · simp [StimulationController.resetRadio, StimulationController.stop_tick_loop,
          StimulationController.ensure_tick_loop, h, h1, h2]
  · simp [StimulationController.resetRadio, StimulationController.stop_tick_loop, h, h1]
  · simp [StimulationController.resetRadio, StimulationController.stop_tick_loop, h, h1, h2]

/-- Claim C8: every extended-capability-only command, on a controller
whose device does not advertise the capability (`basic_supported`
false or basic handle empty), raises nothing, issues no device
operation, changes no state, and writes the unsupported-capability
warning whenever the log bridge is installed. -/
theorem extended_commands_soft_degrade (s : CtrlState) (h : hasBasic s = false) :
    (∀ t, SoftNoop (StimulationController.Save s t) s)
    ∧ (∀ t, SoftNoop (StimulationController.load s t) s)
    ∧ (∀ t c i, SoftNoop (StimulationController.request_Configs s t c i) s)
    ∧ (∀ args, SoftNoop (StimulationController.updateWaveform s args) s)
    ∧ (∀ f e, SoftNoop (StimulationController.loadWaveform s f e) s)
    ∧ (∀ w e t, SoftNoop (StimulationController.WaveformSetup s w e t) s)
    ∧ (∀ i e t, SoftNoop (StimulationController.UpdateIPD s i e t) s) := by
  refine ⟨fun t => ?_, fun t => ?_, fun t c i => ?_, fun args => ?_, fun f e => ?_,
    fun w e t => ?_, fun i e t => ?_⟩
  all_goals
    simp [SoftNoop, StimulationController.Save, StimulationController.load,
      StimulationController.request_Configs, StimulationController.updateWaveform,
      StimulationController.loadWaveform, StimulationController.WaveformSetup,
      StimulationController.UpdateIPD, basicUnsupportedRes, logIf, h]

/-- Claim C8 witness (end-to-end scenario D: `TryGetBasic` answered
`(false, None)`, then `Save(None)`). -/
theorem extended_commands_soft_degrade_witness :
    hasBasic sNoBasic = false
    ∧ SoftNoop (StimulationController.Save sNoBasic none) sNoBasic :=
  ⟨by decide, (extended_commands_soft_degrade sNoBasic (by decide)).1 none⟩

/-- Claim C2 counterexample: after a successful `Initialize` then
`Shutdown`, the log-reset callback is still held (not cleared), and
the subsequent `Initialize` does not reinstall the log bridge. -/
theorem Shutdown_log_reset_not_cleared :
    (StimulationController.Shutdown B0
        (StimulationController.Initialize B0 initialState).state).state.log_reset = true
    ∧ (StimulationController.Initialize B0
        (StimulationController.Shutdown B0
          (StimulationController.Initialize B0 initialState).state).state).ops.count
        Event.installLogSink = 0 := by
  decide

/-- Claim C2 as amended: `Shutdown` clears `device`, `basic_device`,
`basic_supported`, `started` and the tick thread, but retains the
log-reset callback; consequently a subsequent `Initialize` does NOT
reinstall the log bridge. -/
theorem Shutdown_clears_state_except_log_reset (b : Behavior) (s : CtrlState) :
    (StimulationController.Shutdown b s).state =
      { wss := false, basic_wss := false, basic_supported := false, started := false,
        tick_thread := false, log_reset := s.log_reset, log_type := s.log_type }
    ∧ (s.log_reset = true →
        (StimulationController.Initialize b
          (StimulationController.Shutdown b s).state).ops.count Event.installLogSink = 0) := by
  constructor
  · simp [StimulationController.Shutdown, StimulationController.stop_tick_loop]
  · intro h
    simp only [StimulationController.Shutdown, StimulationController.stop_tick_loop,
      StimulationController.Initialize, h]
    split
    · simp
    · split
      · simp
      · split <;>
          simp [h, List.count_append, List.count_cons, List.count_nil] <;>
          split <;> simp [List.count_cons, List.count_nil]

/-- Claim C2 witness (for the amended claim). -/
theorem Shutdown_clears_state_witness :
    sInit.log_reset = true
    ∧ (StimulationController.Shutdown B0 sInit).state =
        { wss := false, basic_wss := false, basic_supported := false, started := false,
          tick_thread := false, log_reset := sInit.log_reset, log_type := sInit.log_type }
    ∧ (StimulationController.Initialize B0
        (StimulationController.Shutdown B0 sInit).state).ops.count Event.installLogSink = 0 :=
  ⟨by decide, (Shutdown_clears_state_except_log_reset B0 sInit).1,
   (Shutdown_clears_state_except_log_reset B0 sInit).2 (by decide)⟩

/-- Claim C1 counterexample: with the device slot empty, `Ready()`
raises nothing (it returns `False`), and `Save(None)` also raises
nothing — contradicting "every command method other than
Initialize/Shutdown fails fast with the not-initialized condition". -/
theorem uninitialized_commands_counterexample :
    (StimulationController.Ready B0 initialState).err = none
    ∧ (StimulationController.Ready B0 initialState).val = false
    ∧ (StimulationController.Save initialState none).err = none := by
  decide

/-- Claim C1 as amended: with the device slot empty, every command
routed through `_ensure_wss` fails fast with the not-initialized
`RuntimeError` surfaced to the caller with no device call; `Ready` and
`Started` instead answer `False` without raising; and the
extended-capability commands soft-no-op without raising. -/
theorem commands_guard_uninitialized (b : Behavior) (s : CtrlState) (h : s.wss = false) :
    (∀ f pw amp ipi, FailsNotInit (StimulationController.StimulateAnalog s f pw amp ipi) s)
    ∧ FailsNotInit (StimulationController.StartStimulation s) s
    ∧ FailsNotInit (StimulationController.StopStimulation s) s
    ∧ (∀ f m, FailsNotInit (StimulationController.StimulateNormalized s f m) s)
    ∧ (∀ f, FailsNotInit (StimulationController.GetStimIntensity b s f) s)
    ∧ (∀ k v, FailsNotInit (StimulationController.AddOrUpdateStimParam s k v) s)
    ∧ (∀ k, FailsNotInit (StimulationController.GetStimParam s k) s)
    ∧ (∀ f v, FailsNotInit (StimulationController.SetChannelAmp s f v) s)
    ∧ (∀ f, FailsNotInit (StimulationController.GetChannelAmp s f) s)
    ∧ (∀ f mx mn am, FailsNotInit (StimulationController.UpdateChannelParams b s f mx mn am) s)
    ∧ FailsNotInit (StimulationController.isModeValid s) s
    ∧ ((StimulationController.Ready b s).err = none
        ∧ (StimulationController.Ready b s).val = false
        ∧ (StimulationController.Ready b s).ops = [])
    ∧ ((StimulationController.Started b s).err = none
        ∧ (StimulationController.Started b s).val = false
        ∧ (StimulationController.Started b s).ops = [])
    ∧ (s.basic_supported = false →
        (∀ t, SoftNoop (StimulationController.Save s t) s)
        ∧ (∀ args, SoftNoop (StimulationController.updateWaveform s args) s)) := by
  refine ⟨fun f pw amp ipi => ?_, ?_, ?_, fun f m => ?_, fun f => ?_, fun k v => ?_,
    fun k => ?_, fun f v => ?_, fun f => ?_, fun f mx mn am => ?_, ?_, ?_, ?_, fun hb => ?_⟩ <;>
    first
      | simp [FailsNotInit, notInitRes, h,
          StimulationController.StimulateAnalog, StimulationController.StartStimulation,
          StimulationController.StopStimulation, StimulationController.StimulateNormalized,
          StimulationController.GetStimIntensity, StimulationController.AddOrUpdateStimParam,
          StimulationController.GetStimParam, StimulationController.SetChannelAmp,
          StimulationController.GetChannelAmp, StimulationController.UpdateChannelParams,
          StimulationController.isModeValid, StimulationController.Ready,
          StimulationController.Started]
      | (refine ⟨fun t => ?_, fun args => ?_⟩ <;>
          simp [SoftNoop, StimulationController.Save, StimulationController.updateWaveform,
            basicUnsupportedRes, logIf, hasBasic, hb])

/-- Claim C1 witness (for the amended claim, end-to-end scenario C). -/
theorem commands_guard_uninitialized_witness :
    initialState.wss = false
    ∧ FailsNotInit (StimulationController.StimulateAnalog initialState "thumb".data 200 3 10)
        initialState
    ∧ (StimulationController.Ready B0 initialState).val = false :=
  ⟨by decide,
   (commands_guard_uninitialized B0 initialState (by decide)).1 "thumb".data 200 3 10,
   ((commands_guard_uninitialized B0 initialState (by decide)).2.2.2.2.2.2.2.2.2.2.2.2.1).2.1⟩

/-- Claim C7: `UpdateChannelParams` on an initialized controller first
has the device validate the resolved channel: out of range raises the
invalid-channel `ValueError` with zero parameter updates and no state
change; in range issues exactly the three parameter updates under
`stim.ch.<n>.maxPW`, `stim.ch.<n>.minPW`, `stim.ch.<n>.amp`. -/
theorem UpdateChannelParams_validates (b : Behavior) (s : CtrlState) (f : List Char)
    (mx mn am : Int) (h : s.wss = true) :
    (b.isChannelInRange (finger_to_channel f) = false →
      (StimulationController.UpdateChannelParams b s f mx mn am).err =
          some (CtrlError.invalidChannel (finger_to_channel f))
      ∧ ((StimulationController.UpdateChannelParams b s f mx mn am).ops.filter
          Event.isParamUpdate) = []
      ∧ (StimulationController.UpdateChannelParams b s f mx mn am).state = s)
    ∧ (b.isChannelInRange (finger_to_channel f) = true →
      (StimulationController.UpdateChannelParams b s f mx mn am).err = none
      ∧ ((StimulationController.UpdateChannelParams b s f mx mn am).ops.filter
          Event.isParamUpdate) =
        [Event.addOrUpdateStimParam
            (StimulationController.chKey (finger_to_channel f) "maxPW".data) mx,
         Event.addOrUpdateStimParam
            (StimulationController.chKey (finger_to_channel f) "minPW".data) mn,
         Event.addOrUpdateStimParam
            (StimulationController.chKey (finger_to_channel f) "amp".data) am]) := by
  constructor
  · intro hr
    simp [StimulationController.UpdateChannelParams, h, hr, Event.isParamUpdate]
  · intro hr
    simp [StimulationController.UpdateChannelParams, StimulationController.okOps, h, hr,
      Event.isParamUpdate]

/-- Claim C7 witness (end-to-end scenario B: `"index"` resolves to
channel 2, reported out of range → invalid-channel error, zero
parameter updates; and the in-range branch at the same input). -/
theorem UpdateChannelParams_validates_witness :
    sInit.wss = true
    ∧ BOutOfRange.isChannelInRange (finger_to_channel "index".data) = false
    ∧ (StimulationController.UpdateChannelParams BOutOfRange sInit "index".data 300 50 5).err =
        some (CtrlError.invalidChannel (finger_to_channel "index".data))
    ∧ ((StimulationController.UpdateChannelParams BOutOfRange sInit "index".data 300 50 5).ops.filter
        Event.isParamUpdate) = []
    ∧ ((StimulationController.UpdateChannelParams B0 sInit "index".data 300 50 5).ops.filter
        Event.isParamUpdate) =
      [Event.addOrUpdateStimParam "stim.ch.2.maxPW".data 300,
       Event.addOrUpdateStimParam "stim.ch.2.minPW".data 50,
       Event.addOrUpdateStimParam "stim.ch.2.amp".data 5] :=
  ⟨by decide, by decide,
   ((UpdateChannelParams_validates BOutOfRange sInit "index".data 300 50 5 (by decide)).1
      (by decide)).1,
   ((UpdateChannelParams_validates BOutOfRange sInit "index".data 300 50 5 (by decide)).1
      (by decide)).2.1,
   by
     have := ((UpdateChannelParams_validates B0 sInit "index".data 300 50 5 (by decide)).2
        (by decide)).2
     simpa using this⟩

/-- Claim C3: with the controller initialized and the extended
capability present, `updateWaveform` routes each of the six accepted
call shapes to the matching device operation with the broadcast or
resolved explicit target, and every other shape raises the
unsupported-call-shape `ValueError` with no device operation. -/
theorem updateWaveform_dispatch (s : CtrlState) (h : hasBasic s = true) :
    (∀ w e, StimulationController.updateWaveform s [PyVal.vbuilder w, e] =
        okOps s [Event.basicUpdateWaveformB w e WssTarget.Broadcast])
    ∧ (∀ t w e, StimulationController.updateWaveform s [PyVal.vint t, PyVal.vbuilder w, e] =
        okOps s [Event.basicUpdateWaveformB w e (int_to_wss_target (some t))])
    ∧ (∀ xs e, StimulationController.updateWaveform s [PyVal.vseq xs, e] =
        okOps s [Event.basicUpdateWaveformS xs e WssTarget.Broadcast])
    ∧ (∀ t xs e, StimulationController.updateWaveform s [PyVal.vint t, PyVal.vseq xs, e] =
        okOps s [Event.basicUpdateWaveformS xs e (int_to_wss_target (some t))])
    ∧ (∀ c a e, StimulationController.updateWaveform s
          [PyVal.vint c, PyVal.vint a, PyVal.vint e] =
        okOps s [Event.basicUpdateEventShape c a e WssTarget.Broadcast])
    ∧ (∀ t c a e, StimulationController.updateWaveform s
          [PyVal.vint t, PyVal.vint c, PyVal.vint a, PyVal.vint e] =
        okOps s [Event.basicUpdateEventShape c a e (int_to_wss_target (some t))])
    ∧ (∀ args, acceptedShape args = false →
        StimulationController.updateWaveform s args =
          { err := some CtrlError.unsupportedShape, val := (), state := s,
            ops := [], logs := [] }) := by
  refine ⟨fun w e => ?_, fun t w e => ?_, fun xs e => ?_, fun t xs e => ?_,
    fun c a e => ?_, fun t c a e => ?_, fun args hsh => ?_⟩
  · simp [StimulationController.updateWaveform, h]
  · simp [StimulationController.updateWaveform, h]
  · simp [StimulationController.updateWaveform, h]
  · simp [StimulationController.updateWaveform, h]
  · simp [StimulationController.updateWaveform, h]
  · simp [StimulationController.updateWaveform, h]
  · rcases args with _ | ⟨a, _ | ⟨b, _ | ⟨c, _ | ⟨d, _ | ⟨e, rest⟩⟩⟩⟩⟩
    · simp [StimulationController.updateWaveform, h]
    · rcases a with n | w | xs | _ <;>
        simp_all [StimulationController.updateWaveform, acceptedShape]
    · rcases a with n | w | xs | _ <;> rcases b with n2 | w2 | xs2 | _ <;>
        simp_all [StimulationController.updateWaveform, acceptedShape]
    · rcases a with n | w | xs | _ <;> rcases b with n2 | w2 | xs2 | _ <;>
        rcases c with n3 | w3 | xs3 | _ <;>
        simp_all [StimulationController.updateWaveform, acceptedShape]
    · rcases a with n | w | xs | _ <;> rcases b with n2 | w2 | xs2 | _ <;>
        rcases c with n3 | w3 | xs3 | _ <;> rcases d with n4 | w4 | xs4 | _ <;>
        simp_all [StimulationController.updateWaveform, acceptedShape]
    · simp [StimulationController.updateWaveform, h]

/-- Claim C3 witness: one shape per routing family plus a rejected
1-argument shape. -/
theorem updateWaveform_dispatch_witness :
    hasBasic sInit = true
    ∧ StimulationController.updateWaveform sInit [PyVal.vbuilder 0, PyVal.vint 4] =
        okOps sInit [Event.basicUpdateWaveformB 0 (PyVal.vint 4) WssTarget.Broadcast]
    ∧ StimulationController.updateWaveform sInit [PyVal.vint 2, PyVal.vint 7, PyVal.vint 9] =
        okOps sInit [Event.basicUpdateEventShape 2 7 9 WssTarget.Broadcast]
    ∧ acceptedShape [PyVal.vint 1] = false
    ∧ StimulationController.updateWaveform sInit [PyVal.vint 1] =
        { err := some CtrlError.unsupportedShape, val := (), state := sInit,
          ops := [], logs := [] } :=
  ⟨by decide, (updateWaveform_dispatch sInit (by decide)).1 0 (PyVal.vint 4),
   (updateWaveform_dispatch sInit (by decide)).2.2.2.2.1 2 7 9,
   by decide,
   (updateWaveform_dispatch sInit (by decide)).2.2.2.2.2.2 [PyVal.vint 1] (by decide)⟩

/-- Claim C6: the channel resolver is total and case-insensitive: any
locator lowering to a name in the fixed five-location vocabulary maps
to its fixed channel (alias "little" = "pinky" = 5); a "ch"-prefixed
locator (any casing) followed by a digit run maps to that decimal
integer, and a "ch"-prefixed locator whose remainder `int(...)`
rejects maps to 0; the empty locator and every locator matching
neither family map to 0. -/
theorem finger_to_channel_spec :
    (∀ l, pyLower l = "thumb".data → finger_to_channel l = 1)
    ∧ (∀ l, pyLower l = "index".data → finger_to_channel l = 2)
    ∧ (∀ l, pyLower l = "middle".data → finger_to_channel l = 3)
    ∧ (∀ l, pyLower l = "ring".data → finger_to_channel l = 4)
    ∧ (∀ l, pyLower l = "pinky".data ∨ pyLower l = "little".data → finger_to_channel l = 5)
    ∧ (∀ c1 c2 ds, c1.toLower = 'c' → c2.toLower = 'h' →
        ds ≠ [] → (∀ c ∈ ds, c.isDigit = true) →
        finger_to_channel (c1 :: c2 :: ds) = Int.ofNat (digitsVal ds))
    ∧ (∀ c1 c2 rest, c1.toLower = 'c' → c2.toLower = 'h' →
        pyParseInt? rest = none → finger_to_channel (c1 :: c2 :: rest) = 0)
    ∧ finger_to_channel [] = 0
    ∧ (∀ l, l ≠ [] → (List.isPrefixOf ['c', 'h'] (pyLower l)) = false →
        pyLower l ≠ "thumb".data → pyLower l ≠ "index".data → pyLower l ≠ "middle".data →
        pyLower l ≠ "ring".data → pyLower l ≠ "pinky".data → pyLower l ≠ "little".data →
        finger_to_channel l = 0) := by
  refine ⟨fun l hl => ?_, fun l hl => ?_, fun l hl => ?_, fun l hl => ?_, fun l hl => ?_,
    fun c1 c2 ds h1 h2 hne hd => ?_, fun c1 c2 rest h1 h2 hp => ?_, by decide,
    fun l hne hpre m1 m2 m3 m4 m5 m6 => ?_⟩
  · have hne : l ≠ [] := by intro e; rw [e] at hl; exact absurd hl (by decide)
    unfold finger_to_channel
    rw [if_neg hne, hl,
        if_neg (by decide : ¬ (List.isPrefixOf ['c', 'h'] "thumb".data = true))]
    decide
  · have hne : l ≠ [] := by intro e; rw [e] at hl; exact absurd hl (by decide)
    unfold finger_to_channel
    rw [if_neg hne, hl,
        if_neg (by decide : ¬ (List.isPrefixOf ['c', 'h'] "index".data = true))]
    decide
  · have hne : l ≠ [] := by intro e; rw [e] at hl; exact absurd hl (by decide)
    unfold finger_to_channel
    rw [if_neg hne, hl,
        if_neg (by decide : ¬ (List.isPrefixOf ['c', 'h'] "middle".data = true))]
    decide
  · have hne : l ≠ [] := by intro e; rw [e] at hl; exact absurd hl (by decide)
    unfold finger_to_channel
    rw [if_neg hne, hl,
        if_neg (by decide : ¬ (List.isPrefixOf ['c', 'h'] "ring".data = true))]
    decide
  · rcases hl with hl | hl
    · have hne : l ≠ [] := by intro e; rw [e] at hl; exact absurd hl (by decide)
      unfold finger_to_channel
      rw [if_neg hne, hl,
          if_neg (by decide : ¬ (List.isPrefixOf ['c', 'h'] "pinky".data = true))]
      decide
    · have hne : l ≠ [] := by intro e; rw [e] at hl; exact absurd hl (by decide)
      unfold finger_to_channel
      rw [if_neg hne, hl,
          if_neg (by decide : ¬ (List.isPrefixOf ['c', 'h'] "little".data = true))]
      decide
  · have hlow : pyLower (c1 :: c2 :: ds) = 'c' :: 'h' :: pyLower ds := by
      simp [pyLower, h1, h2]
    unfold finger_to_channel
    rw [if_neg (List.cons_ne_nil c1 (c2 :: ds)), hlow,
        if_pos (by simp [List.isPrefixOf] :
          (List.isPrefixOf ['c', 'h'] ('c' :: 'h' :: pyLower ds)) = true)]
    have hdrop : (c1 :: c2 :: ds).drop 2 = ds := rfl
    rw [hdrop, pyParseInt_digits ds hne hd]
  · have hlow : pyLower (c1 :: c2 :: rest) = 'c' :: 'h' :: pyLower rest := by
      simp [pyLower, h1, h2]
    unfold finger_to_channel
    rw [if_neg (List.cons_ne_nil c1 (c2 :: rest)), hlow,
        if_pos (by simp [List.isPrefixOf] :
          (List.isPrefixOf ['c', 'h'] ('c' :: 'h' :: pyLower rest)) = true)]
    have hdrop : (c1 :: c2 :: rest).drop 2 = rest := rfl
    rw [hdrop, hp]
  · unfold finger_to_channel
    rw [if_neg hne, if_neg (by rw [hpre]; exact Bool.false_ne_true)]
    simp [m1, m2, m3, m4, m5, m6]

/-- Claim C6 witness: the fixed vocabulary (mixed casing), an
uppercase digit alias, a malformed alias, and a fallthrough name. -/
theorem finger_to_channel_spec_witness :
    finger_to_channel "Thumb".data = 1
    ∧ finger_to_channel "index".data = 2
    ∧ finger_to_channel "MIDDLE".data = 3
    ∧ finger_to_channel "ring".data = 4
    ∧ finger_to_channel "Little".data = 5
    ∧ finger_to_channel "CH12".data = Int.ofNat (digitsVal "12".data)
    ∧ finger_to_channel "chx".data = 0
    ∧ finger_to_channel [] = 0
    ∧ finger_to_channel "palm".data = 0 :=
  ⟨finger_to_channel_spec.1 "Thumb".data (by decide),
   finger_to_channel_spec.2.1 "index".data (by decide),
   finger_to_channel_spec.2.2.1 "MIDDLE".data (by decide),
   finger_to_channel_spec.2.2.2.1 "ring".data (by decide),
   finger_to_channel_spec.2.2.2.2.1 "Little".data (Or.inr (by decide)),
   finger_to_channel_spec.2.2.2.2.2.1 'C' 'H' "12".data (by decide) (by decide)
     (by decide) (by decide),
   finger_to_channel_spec.2.2.2.2.2.2.1 'c' 'h' ['x'] (by decide) (by decide) (by decide),
   finger_to_channel_spec.2.2.2.2.2.2.2.1,
   finger_to_channel_spec.2.2.2.2.2.2.2.2 "palm".data (by decide) (by decide) (by decide)
     (by decide) (by decide) (by decide) (by decide) (by decide)⟩

/-- Claim C10: a "ch"-prefixed locator (any casing) whose remainder is
a minus sign followed by digits resolves to the negative integer, not
the 0 sentinel, and that negative channel index flows unchecked into a
downstream device call (`SetChannelAmp` shown). -/
theorem finger_to_channel_negative (c1 c2 : Char) (ds : List Char) (s : CtrlState)
    (h1 : c1.toLower = 'c') (h2 : c2.toLower = 'h')
    (hne : ds ≠ []) (hd : ∀ c ∈ ds, c.isDigit = true) (hs : s.wss = true) :
    finger_to_channel (c1 :: c2 :: '-' :: ds) = -(Int.ofNat (digitsVal ds))
    ∧ ∀ v, (StimulationController.SetChannelAmp s (c1 :: c2 :: '-' :: ds) v).ops =
        [Event.setChannelAmp (-(Int.ofNat (digitsVal ds))) v] := by
  have hch : finger_to_channel (c1 :: c2 :: '-' :: ds) = -(Int.ofNat (digitsVal ds)) := by
    have hlow : pyLower (c1 :: c2 :: '-' :: ds) = 'c' :: 'h' :: '-' :: pyLower ds := by
      simp [pyLower, h1, h2, (by decide : ('-' : Char).toLower = '-')]
    unfold finger_to_channel
    rw [if_neg (List.cons_ne_nil c1 (c2 :: '-' :: ds)), hlow,
        if_pos (by simp [List.isPrefixOf] :
          (List.isPrefixOf ['c', 'h'] ('c' :: 'h' :: '-' :: pyLower ds)) = true)]
    have hdrop : (c1 :: c2 :: '-' :: ds).drop 2 = '-' :: ds := rfl
    rw [hdrop, pyParseInt_neg_digits ds hne hd]
  refine ⟨hch, fun v => ?_⟩
  simp [StimulationController.SetChannelAmp, hs, okOps, hch]

/-- Claim C10 witness: "ch-2" resolves to channel -2 and reaches the
device. -/
theorem finger_to_channel_negative_witness :
    finger_to_channel "ch-2".data = -(Int.ofNat (digitsVal "2".data))
    ∧ (StimulationController.SetChannelAmp sInit "ch-2".data 7).ops =
        [Event.setChannelAmp (-(Int.ofNat (digitsVal "2".data))) 7] :=
  ⟨(finger_to_channel_negative 'c' 'h' "2".data sInit (by decide) (by decide) (by decide)
      (by decide) (by decide)).1,
   (finger_to_channel_negative 'c' 'h' "2".data sInit (by decide) (by decide) (by decide)
      (by decide) (by decide)).2 7⟩

/-- Claim C9 witness. -/
theorem resetRadio_spec_witness :
    initialState.wss = false
    ∧ StimulationController.resetRadio B0 initialState =
        { err := none, val := (), state := initialState, ops := [], logs := [] }
    ∧ sInit.wss = true
    ∧ (StimulationController.resetRadio BFailTeardown sInit).err =
        some CtrlError.deviceFailure :=
  ⟨by decide, (resetRadio_spec B0 initialState).1 (by decide), by decide,
   ((resetRadio_spec BFailTeardown sInit).2.2.1 (by decide) (by decide)).1⟩

end Wss
